import Mathlib

/-!
Verification of the RIIGID.py geometry-optimization front end.

Shallow embedding of `rigid/rigid.py` and `src/optimization_step.py`.
Python attributes that do not exist until assigned are `Option`; a Python
method that can raise maps to `Except PyExc`.  Classes that the package
obtains from external libraries (the ASE `Vasp` calculator, the `GDWAS`
optimizer, the `CC_Displacement` criterion) are opaque: their constructors
are passed in as function parameters and their instances are values of a
type parameter.
-/

/-- Character-list prefix test, used to decide whether one string occurs
inside another (needed to check whether an error message names an
identifier). -/
def startsWithChars : List Char → List Char → Bool
  | [], _ => true
  | _ :: _, [] => false
  | a :: n, b :: h => a = b && startsWithChars n h

/-- Does the needle occur as a contiguous run inside the haystack? -/
def occursIn (needle : List Char) : List Char → Bool
  | [] => startsWithChars needle []
  | c :: h => startsWithChars needle (c :: h) || occursIn needle h

/-- String containment: `strMentions hay needle` is true when `needle`
occurs verbatim inside `hay`. -/
def strMentions (hay needle : String) : Bool :=
  occursIn needle.toList hay.toList

/-- Python exceptions raised by the embedded code.  `exception` is the
builtin `Exception(msg)` used by the three setters; `unboundLocalError` is
what CPython raises when a local variable is read before any assignment;
`validationError` is the fragment-definition failure of spec section 4.1. -/
inductive PyExc where
  | exception (msg : String)
  | unboundLocalError (name : String)
  | validationError
deriving DecidableEq, Repr

/-- Keyword-settings mapping (`settings` dict) passed to the setters. -/
abbrev Settings := List (String × String)

/-- Reading a Python local variable: `none` models a name that was never
assigned on the path reaching the read, so the read raises
`UnboundLocalError` naming the variable. -/
def readLocal (v : Option Bool) (name : String) : Except PyExc Bool :=
  match v with
  | some b => .ok b
  | none => .error (.unboundLocalError name)

/-- Python's `str.lower()`, modelled character by character on the string's
underlying character list (the identifiers being compared are ASCII). -/
def pyLower (s : String) : String :=
  ⟨s.data.map Char.toLower⟩

/-- Message of the `Exception` raised by `set_calculator` for an unknown
calculator name (rigid/rigid.py line 95). -/
def CALC_UNKNOWN_MSG : String :=
  "Calculator not known... did you write the name correctly? Tip: Maybe initialize the calculator in your code and hand it to RIGID, instead of handing its name (string) to RIGID."

/-- Message of the `Exception` raised by `set_optimizer` for an unknown
optimizer name (rigid/rigid.py line 136). -/
def OPT_UNKNOWN_MSG : String :=
  "Optimizer not known... did you write the name correctly? Tip: Maybe initialize the optimizer in your code and hand it to RIGID, instead of handing its name (string) to RIGID."

/-- Message of the `Exception` raised by `set_convergence_criterion` for an
unknown criterion name (rigid/rigid.py line 184). -/
def CC_UNKNOWN_MSG : String :=
  "Convergence criterion not known... did you write the name correctly? Tip: Maybe initialize the convergence criterion in your code and hand it to RIGID, instead of handing its name (string) to RIGID."

/-- One record of `src/optimization_step.py`.  The Python attribute named
`structure` is spelled `structure_` because `structure` is a Lean keyword;
`forces` and `energy` belong to `structure_`, never to `updated_structure`.
`S`, `F`, `E`, `U` are the (opaque) types of the stored structure, force
array, energy and updated structure. -/
structure Optimization_Step (S F E U : Type) where
  structure_ : S
  forces : F
  energy : E
  updated_structure : Option U
deriving DecidableEq, Repr

/-- Constructing an `Optimization_Step` without the optional
`updated_structure` argument: the Python default is `None`. -/
def Optimization_Step.initNoUpdate (s : S) (f : F) (e : E) :
    Optimization_Step S F E U :=
  ⟨s, f, e, none⟩

/-- Method `add_updated_structure`: overwrite the `updated_structure`
attribute with the given structure (optimization_step.py lines 29-38). -/
def Optimization_Step.add_updated_structure
    (step : Optimization_Step S F E U) (u : U) : Optimization_Step S F E U :=
  { step with updated_structure := some u }

/-- Method `remove_updated_structure`: reset the `updated_structure`
attribute to `None` (optimization_step.py lines 40-44). -/
def Optimization_Step.remove_updated_structure
    (step : Optimization_Step S F E U) : Optimization_Step S F E U :=
  { step with updated_structure := none }

/-- The mutating operations `Optimization_Step` offers after construction. -/
inductive StepOp (U : Type) where
  | add (u : U)
  | remove

/-- Apply one post-construction operation to a step. -/
def applyStepOp (step : Optimization_Step S F E U) : StepOp U →
    Optimization_Step S F E U
  | .add u => step.add_updated_structure u
  | .remove => step.remove_updated_structure

/-- Apply a sequence of post-construction operations, left to right. -/
def applyStepOps (step : Optimization_Step S F E U) (ops : List (StepOp U)) :
    Optimization_Step S F E U :=
  ops.foldl applyStepOp step

/-- The `Structure` class of rigid/structure.py, reduced to what the claims
use: the ordered atom list (atom contents opaque, of type `A`) and the set
of fragments, each a list of zero-based atom indices. -/
structure PyStructure (A : Type) where
  atoms : List A
  fragments : List (List Nat)
deriving DecidableEq, Repr

/-- Modelled from the spec: `Structure.define_fragment_by_indices` lives in
rigid/structure.py, which is not among the available source files (only the
delegating wrapper `RIGID.define_fragment_by_indices` is).  Following spec
section 4.1, the call fails with `ValidationError` when the index set is
empty, when any index is out of range of the atom list, or when any index
is already claimed by another fragment; otherwise the new fragment is
appended to the fragment set. -/
def PyStructure.define_fragment_by_indices (st : PyStructure A)
    (atom_indices : List Nat) : Except PyExc (PyStructure A) :=
  if atom_indices.isEmpty then
    .error .validationError
  else if atom_indices.any (fun i => st.atoms.length ≤ i) then
    .error .validationError
  else if atom_indices.any (fun i => st.fragments.any (fun f => i ∈ f)) then
    .error .validationError
  else
    .ok { st with fragments := st.fragments ++ [atom_indices] }

/-- The `RIGID` object of rigid/rigid.py.  Attributes assigned only by the
setters start out absent (`Option`).  `C`, `O`, `K` are the opaque types of
calculator, optimizer and convergence-criterion objects; `S` is the type of
the (already wrapped) start structure. -/
structure RIGID (S C O K : Type) where
  start_structure : S
  name : String
  calculator : Option C
  optimizer : Option O
  convergence_criterion : Option K
deriving DecidableEq, Repr

/-- Method `RIGID.set_calculator` (rigid/rigid.py lines 67-105).  A string
argument is matched after lower-casing: `"vasp"` constructs
`Vasp(**settings)` (the external constructor is the parameter `mkVasp`),
any other string raises `Exception(CALC_UNKNOWN_MSG)`.  A non-string
argument is installed as given; the `settings` dict is only read on the
string path.  The trailing `print` block only reads the installed
calculator. -/
def RIGID.set_calculator (r : RIGID S C O K) (mkVasp : Settings → C)
    (calculator : String ⊕ C) (settings : Settings) :
    Except PyExc (RIGID S C O K) :=
  match calculator with
  | .inl s =>
      if pyLower s = "vasp" then
        .ok { r with calculator := some (mkVasp settings) }
      else
        .error (.exception CALC_UNKNOWN_MSG)
  | .inr c => .ok { r with calculator := some c }

/-- Method `RIGID.set_optimizer` (rigid/rigid.py lines 107-153).  Same
shape as `set_calculator`, recognising `"gdwas"`; on the non-string path
the local flag `provided_optimizer_was_string` is assigned `False` (line
140) before the later reads, so no exception occurs and the given object
is installed. -/
def RIGID.set_optimizer (r : RIGID S C O K) (mkGDWAS : Settings → O)
    (optimizer : String ⊕ O) (settings : Settings) :
    Except PyExc (RIGID S C O K) :=
  match optimizer with
  | .inl s =>
      if pyLower s = "gdwas" then
        .ok { r with optimizer := some (mkGDWAS settings) }
      else
        .error (.exception OPT_UNKNOWN_MSG)
  | .inr o =>
      match readLocal (some false) "provided_optimizer_was_string" with
      | .ok _ => .ok { r with optimizer := some o }
      | .error e => .error e

/-- Method `RIGID.set_convergence_criterion` (rigid/rigid.py lines
155-201).  A string argument first assigns the local flag
`provided_convergence_criterion_was_string = True`, then matches the
lower-cased name against `"cc_displacement"`.  On the non-string path the
else branch (line 188) consists of the bare expression
`provided_convergence_criterion_was_string`: the name is local to the
function (it is assigned in the if branch) but was never assigned on this
path, so evaluating it raises `UnboundLocalError` before the attribute
assignment `self.convergence_criterion = convergence_criterion` on line
190 is reached. -/
def RIGID.set_convergence_criterion (r : RIGID S C O K)
    (mkCC : Settings → K) (convergence_criterion : String ⊕ K)
    (settings : Settings) : Except PyExc (RIGID S C O K) :=
  match convergence_criterion with
  | .inl s =>
      if pyLower s = "cc_displacement" then
        .ok { r with convergence_criterion := some (mkCC settings) }
      else
        .error (.exception CC_UNKNOWN_MSG)
  | .inr k =>
      match readLocal none "provided_convergence_criterion_was_string" with
      | .ok _ => .ok { r with convergence_criterion := some k }
      | .error e => .error e

/-- Method `RIGID.define_fragment_by_indices` (rigid/rigid.py lines
62-65): delegates to the start structure. -/
def RIGID.define_fragment_by_indices (r : RIGID (PyStructure A) C O K)
    (atom_indices : List Nat) : Except PyExc (RIGID (PyStructure A) C O K) :=
  match r.start_structure.define_fragment_by_indices atom_indices with
  | .ok st => .ok { r with start_structure := st }
  | .error e => .error e

/-- Method `RIGID.save_optimization_history` (rigid/rigid.py lines
219-226): `pickle.dump` of the optimization history.  The pickled blob is
modelled by the value it deserializes back to, so the serializer is the
identity on the step sequence. -/
def save_optimization_history
    (optimization_history : List (Optimization_Step (PyStructure A) F E U)) :
    List (Optimization_Step (PyStructure A) F E U) :=
  optimization_history

/-- Method `RIGID.create_trajectory_file_from_optimization_history`
(rigid/rigid.py lines 228-236): iterate over the history in order, writing
`optimization_step.structure.atoms` for each step.  The trajectory file is
modelled by the list of snapshots it contains, in write order. -/
def create_trajectory_file_from_optimization_history
    (optimization_history : List (Optimization_Step (PyStructure A) F E U)) :
    List (List A) :=
  optimization_history.map (fun optimization_step =>
    optimization_step.structure_.atoms)

/-- The files written by the tail of `RIGID.run`. -/
structure RunOutputs (A F E U : Type) where
  pickled : List (Optimization_Step (PyStructure A) F E U)
  trajectory : List (List A)
deriving DecidableEq, Repr

/-- Method `RIGID.run` (rigid/rigid.py lines 203-217), after the external
`self.optimizer.run(...)` call has produced `optimizer.optimization_history`
(the optimizer class is an external collaborator, so the finished history
is the input here): persist the history as the pickle blob and as the
trajectory file.  The final `print_optimization_summary` only prints. -/
def RIGID.run
    (optimization_history : List (Optimization_Step (PyStructure A) F E U)) :
    RunOutputs A F E U :=
  { pickled := save_optimization_history optimization_history
    trajectory :=
      create_trajectory_file_from_optimization_history optimization_history }

/-- C2: for every `Optimization_Step` and every argument value,
`add_updated_structure` and `remove_updated_structure` change only the
`updated_structure` field; the `structure`, `forces` and `energy` fields
stored at construction are unchanged by both operations. -/
theorem add_remove_change_only_updated_structure {S F E U : Type}
    (step : Optimization_Step S F E U) (u : U) :
    (step.add_updated_structure u).structure_ = step.structure_ ∧
    (step.add_updated_structure u).forces = step.forces ∧
    (step.add_updated_structure u).energy = step.energy ∧
    step.remove_updated_structure.structure_ = step.structure_ ∧
    step.remove_updated_structure.forces = step.forces ∧
    step.remove_updated_structure.energy = step.energy :=
  ⟨rfl, rfl, rfl, rfl, rfl, rfl⟩

/-- C3 counterexample: a fully populated step (with `updated_structure`
attached) is not immutable — `remove_updated_structure` changes it. -/
theorem populated_step_mutable_cex :
    Optimization_Step.remove_updated_structure
        (⟨0, 1, 2, some 3⟩ : Optimization_Step Nat Nat Nat Nat) ≠
      (⟨0, 1, 2, some 3⟩ : Optimization_Step Nat Nat Nat Nat) := by
  decide

/-- C3 (amended): a fully populated step is not immutable —
`add_updated_structure` and `remove_updated_structure` may still overwrite
or clear `updated_structure` — but every other field is: under any sequence
of post-construction operations the `structure`, `forces` and `energy`
fields never change. -/
theorem pre_update_fields_immutable_under_all_ops {S F E U : Type}
    (step : Optimization_Step S F E U) (ops : List (StepOp U)) :
    (applyStepOps step ops).structure_ = step.structure_ ∧
    (applyStepOps step ops).forces = step.forces ∧
    (applyStepOps step ops).energy = step.energy := by
  induction ops generalizing step with
  | nil => exact ⟨rfl, rfl, rfl⟩
  | cons op ops ih =>
    have h := ih (applyStepOp step op)
    have hop : (applyStepOp step op).structure_ = step.structure_ ∧
        (applyStepOp step op).forces = step.forces ∧
        (applyStepOp step op).energy = step.energy := by
      cases op <;> exact ⟨rfl, rfl, rfl⟩
    simp only [applyStepOps, List.foldl_cons] at h ⊢
    exact ⟨h.1.trans hop.1, h.2.1.trans hop.2.1, h.2.2.trans hop.2.2⟩

/-- C4: a step constructed without an `updated_structure` argument has it
absent (`None`); attach-then-clear equals clear alone on every step; and on
a freshly constructed step attach-then-clear is the identity. -/
theorem attach_then_clear_restores_step {S F E U : Type}
    (s : S) (f : F) (e : E) (step : Optimization_Step S F E U) (u u' : U) :
    (Optimization_Step.initNoUpdate s f e :
        Optimization_Step S F E U).updated_structure = none ∧
    (step.add_updated_structure u).remove_updated_structure =
      step.remove_updated_structure ∧
    ((Optimization_Step.initNoUpdate s f e :
          Optimization_Step S F E U).add_updated_structure
        u').remove_updated_structure =
      Optimization_Step.initNoUpdate s f e :=
  ⟨rfl, rfl, rfl⟩

/-- C7: on the non-string path, `set_convergence_criterion` raises
`UnboundLocalError` for `provided_convergence_criterion_was_string` (the
else branch at rigid/rigid.py line 188 reads the never-assigned local)
before the `convergence_criterion` attribute is assigned, so a pre-built
criterion object can never be installed; the analogous non-string path of
`set_optimizer` does install the pre-built optimizer object. -/
theorem prebuilt_criterion_raises_unbound_local {S C O K : Type}
    (r : RIGID S C O K) (mkCC : Settings → K) (mkGDWAS : Settings → O)
    (k : K) (o : O) (settings settings' : Settings) :
    r.set_convergence_criterion mkCC (.inr k) settings =
      .error
        (.unboundLocalError "provided_convergence_criterion_was_string") ∧
    r.set_optimizer mkGDWAS (.inr o) settings' =
      .ok { r with optimizer := some o } :=
  ⟨rfl, rfl⟩

/-- C9: when `set_calculator` is given a non-string calculator object, the
`settings` argument (and the external `Vasp` constructor) has no influence
on the result, and the installed calculator is the identical object passed
in, stored unchanged. -/
theorem prebuilt_calculator_ignores_settings {S C O K : Type}
    (r : RIGID S C O K) (mkVasp mkVasp' : Settings → C) (c : C)
    (settings₁ settings₂ : Settings) :
    r.set_calculator mkVasp (.inr c) settings₁ =
      r.set_calculator mkVasp' (.inr c) settings₂ ∧
    r.set_calculator mkVasp (.inr c) settings₁ =
      .ok { r with calculator := some c } :=
  ⟨rfl, rfl⟩

/-- C5: the pickled blob preserves the full optimization-step sequence, and
the trajectory file contains exactly one snapshot per step — each step's
pre-update structure's atoms — in history order, with no step omitted,
truncated or reordered. -/
theorem run_persists_full_history {A F E U : Type}
    (optimization_history : List (Optimization_Step (PyStructure A) F E U)) :
    (RIGID.run optimization_history).pickled = optimization_history ∧
    (RIGID.run optimization_history).trajectory =
      optimization_history.map (fun step => step.structure_.atoms) ∧
    (RIGID.run optimization_history).trajectory.length =
      optimization_history.length ∧
    ∀ i : Nat,
      (RIGID.run optimization_history).trajectory[i]? =
        (optimization_history[i]?).map (fun step => step.structure_.atoms) := by
  refine ⟨rfl, rfl, ?_, ?_⟩
  · simp [RIGID.run, create_trajectory_file_from_optimization_history,
      save_optimization_history]
  · intro i
    simp [RIGID.run, create_trajectory_file_from_optimization_history,
      save_optimization_history]

/-- C1 counterexample: for the unknown calculator name "lammps" the setter
does raise immediately, but the raised error is the plain builtin
`Exception` and its message does not name the valid set of identifiers
(the whole valid set for calculators is {"vasp"}, and "vasp" does not occur
in the message). -/
theorem unknown_name_error_without_valid_set_cex :
    (RIGID.set_calculator (⟨0, "x", none, none, none⟩ : RIGID Nat Nat Nat Nat)
        (fun _ => 0) (.inl "lammps") [] =
      .error (.exception CALC_UNKNOWN_MSG)) ∧
    strMentions CALC_UNKNOWN_MSG "vasp" = false :=
  ⟨rfl, by decide⟩

/-- C1 (amended): for every unknown string identifier, `set_calculator`,
`set_optimizer` and `set_convergence_criterion` fail immediately at setup
time — the setter itself returns the raised error, touching no attribute
and invoking no calculator — but the error is the plain builtin
`Exception`, not a `ConfigurationError`, and its fixed message does not
name the valid identifiers. -/
theorem unknown_names_raise_plain_exception {S C O K : Type}
    (r : RIGID S C O K) (mkVasp : Settings → C) (mkGDWAS : Settings → O)
    (mkCC : Settings → K) (s₁ s₂ s₃ : String) (settings : Settings)
    (h₁ : pyLower s₁ ≠ "vasp") (h₂ : pyLower s₂ ≠ "gdwas")
    (h₃ : pyLower s₃ ≠ "cc_displacement") :
    r.set_calculator mkVasp (.inl s₁) settings =
      .error (.exception CALC_UNKNOWN_MSG) ∧
    r.set_optimizer mkGDWAS (.inl s₂) settings =
      .error (.exception OPT_UNKNOWN_MSG) ∧
    r.set_convergence_criterion mkCC (.inl s₃) settings =
      .error (.exception CC_UNKNOWN_MSG) := by
  refine ⟨?_, ?_, ?_⟩ <;>
    simp [RIGID.set_calculator, RIGID.set_optimizer,
      RIGID.set_convergence_criterion, h₁, h₂, h₃]

/-- Witness for the amended C1 at concrete unknown names. -/
theorem unknown_names_raise_plain_exception_witness :
    RIGID.set_calculator (⟨0, "x", none, none, none⟩ : RIGID Nat Nat Nat Nat)
        (fun _ => 0) (.inl "lammps") [] =
      .error (.exception CALC_UNKNOWN_MSG) ∧
    RIGID.set_optimizer (⟨0, "x", none, none, none⟩ : RIGID Nat Nat Nat Nat)
        (fun _ => 0) (.inl "bfgs") [] =
      .error (.exception OPT_UNKNOWN_MSG) ∧
    RIGID.set_convergence_criterion
        (⟨0, "x", none, none, none⟩ : RIGID Nat Nat Nat Nat) (fun _ => 0)
        (.inl "cc_energy") [] =
      .error (.exception CC_UNKNOWN_MSG) :=
  unknown_names_raise_plain_exception _ _ _ _ "lammps" "bfgs" "cc_energy" []
    (by decide) (by decide) (by decide)

/-- C8: string identifier matching in the three setters is
case-insensitive: whenever the lower-cased argument equals "vasp", "gdwas"
or "cc_displacement", the corresponding variant is constructed from the
settings mapping and installed, regardless of the letter case of the
input. -/
theorem name_matching_case_insensitive {S C O K : Type}
    (r : RIGID S C O K) (mkVasp : Settings → C) (mkGDWAS : Settings → O)
    (mkCC : Settings → K) (s₁ s₂ s₃ : String) (settings : Settings)
    (h₁ : pyLower s₁ = "vasp") (h₂ : pyLower s₂ = "gdwas")
    (h₃ : pyLower s₃ = "cc_displacement") :
    r.set_calculator mkVasp (.inl s₁) settings =
      .ok { r with calculator := some (mkVasp settings) } ∧
    r.set_optimizer mkGDWAS (.inl s₂) settings =
      .ok { r with optimizer := some (mkGDWAS settings) } ∧
    r.set_convergence_criterion mkCC (.inl s₃) settings =
      .ok { r with convergence_criterion := some (mkCC settings) } := by
  refine ⟨?_, ?_, ?_⟩ <;>
    simp [RIGID.set_calculator, RIGID.set_optimizer,
      RIGID.set_convergence_criterion, h₁, h₂, h₃]

/-- Witness for C8 at mixed-case identifiers. -/
theorem name_matching_case_insensitive_witness :
    RIGID.set_calculator (⟨0, "nm", none, none, none⟩ : RIGID Nat Nat Nat Nat)
        (fun _ => 7) (.inl "VaSp") [] =
      .ok (⟨0, "nm", some 7, none, none⟩ : RIGID Nat Nat Nat Nat) ∧
    RIGID.set_optimizer (⟨0, "nm", none, none, none⟩ : RIGID Nat Nat Nat Nat)
        (fun _ => 8) (.inl "GdWaS") [] =
      .ok (⟨0, "nm", none, some 8, none⟩ : RIGID Nat Nat Nat Nat) ∧
    RIGID.set_convergence_criterion
        (⟨0, "nm", none, none, none⟩ : RIGID Nat Nat Nat Nat) (fun _ => 9)
        (.inl "CC_Displacement") [] =
      .ok (⟨0, "nm", none, none, some 9⟩ : RIGID Nat Nat Nat Nat) :=
  name_matching_case_insensitive _ _ _ _ "VaSp" "GdWaS" "CC_Displacement" []
    (by decide) (by decide) (by decide)

/-- C6: fragment definition with an empty index set, an index out of range
of the atom list, or an index already claimed by another fragment fails
with `ValidationError`; the error is returned in place of any updated
object, so the Structure's fragment set is left unchanged (no partial
mutation). -/
theorem invalid_fragment_definition_validation_error {A C O K : Type}
    (r : RIGID (PyStructure A) C O K) (atom_indices : List Nat)
    (hbad : atom_indices = [] ∨
      (∃ i ∈ atom_indices, r.start_structure.atoms.length ≤ i) ∨
      (∃ i ∈ atom_indices, ∃ f ∈ r.start_structure.fragments, i ∈ f)) :
    r.define_fragment_by_indices atom_indices = .error .validationError := by
  have hst : r.start_structure.define_fragment_by_indices atom_indices =
      .error .validationError := by
    unfold PyStructure.define_fragment_by_indices
    rcases hbad with h | h | h
    · simp [h]
    · obtain ⟨i, hi, hlen⟩ := h
      have h2 : atom_indices.any
          (fun j => r.start_structure.atoms.length ≤ j) = true :=
        List.any_eq_true.2 ⟨i, hi, decide_eq_true hlen⟩
      cases he : atom_indices.isEmpty <;> simp [he, h2]
    · obtain ⟨i, hi, f, hf, hif⟩ := h
      have h3 : atom_indices.any
          (fun j => r.start_structure.fragments.any (fun g => j ∈ g)) =
            true :=
        List.any_eq_true.2
          ⟨i, hi, List.any_eq_true.2 ⟨f, hf, decide_eq_true hif⟩⟩
      cases he : atom_indices.isEmpty
      · cases h2 : atom_indices.any
            (fun j => r.start_structure.atoms.length ≤ j) <;>
          simp [he, h2, h3]
      · simp [he]
  simp [RIGID.define_fragment_by_indices, hst]

/-- Witness for C6: index 5 is out of range of a 2-atom structure. -/
theorem invalid_fragment_definition_witness :
    RIGID.define_fragment_by_indices
        (⟨⟨[0, 0], []⟩, "nm", none, none, none⟩ :
          RIGID (PyStructure Nat) Nat Nat Nat) [5] =
      .error .validationError :=
  invalid_fragment_definition_validation_error _ [5]
    (Or.inr (Or.inl ⟨5, by decide, by decide⟩))
